import Mathlib

/-!
Verification development for a shared-ownership reference-counting handle
library (smart_pointers.hpp): SharedPtr / WeakPtr over a control-block
hierarchy (SharedCount, SharedWeakCount, SharedPtrPointer, SharedPtrEmplacer).

The embedding models one control block as a record of its two counters
together with event counters for the two polymorphic cleanup hooks:
zero_shared (object destruction) and zero_shared_and_weak (control-block
storage deallocation).  Handle operations are transcribed from the source
member functions and composed into a small step machine over traces of
handle operations sharing that one block.
-/

namespace SmartPointers

/-- Control-block counter state.  strong mirrors SharedCount::shared_owners_,
weak mirrors SharedWeakCount::shared_weak_owners_.  destroyCount counts
invocations of the virtual zero_shared hook (the object-destruction hook of
both SharedPtrPointer and SharedPtrEmplacer); deallocCount counts invocations
of zero_shared_and_weak (the storage-deallocation hook). -/
structure CB where
  strong : Nat
  weak : Nat
  destroyCount : Nat
  deallocCount : Nat
  deriving DecidableEq

/-- SharedCount::use_count: returns shared_owners_. -/
def use_count (c : CB) : Nat := c.strong

/-- SharedCount::add_shared: ++shared_owners_. -/
def add_shared (c : CB) : CB := { c with strong := c.strong + 1 }

/-- Virtual hook fired by release_shared when the strong count is zero:
SharedPtrPointer::zero_shared runs the deleter on the object,
SharedPtrEmplacer::zero_shared destroys the object in place.  Modelled as an
event counter increment. -/
def zero_shared (c : CB) : CB := { c with destroyCount := c.destroyCount + 1 }

/-- Virtual hook fired by release_weak when the weak count is zero:
both control-block variants deallocate their own storage.  Modelled as an
event counter increment. -/
def zero_shared_and_weak (c : CB) : CB :=
  { c with deallocCount := c.deallocCount + 1 }

/-- SharedCount::release_shared: if shared_owners_ == 0, zero_shared(). -/
def release_shared (c : CB) : CB :=
  if c.strong = 0 then zero_shared c else c

/-- SharedWeakCount::add_weak: ++shared_weak_owners_. -/
def add_weak (c : CB) : CB := { c with weak := c.weak + 1 }

/-- SharedWeakCount::decrement_weak: if shared_weak_owners_ > 0, decrement. -/
def decrement_weak (c : CB) : CB :=
  if 0 < c.weak then { c with weak := c.weak - 1 } else c

/-- SharedWeakCount::decrement_shared: if shared_owners_ > 0, decrement. -/
def decrement_shared (c : CB) : CB :=
  if 0 < c.strong then { c with strong := c.strong - 1 } else c

/-- SharedWeakCount::release_weak: if shared_weak_owners_ == 0,
zero_shared_and_weak(). -/
def release_weak (c : CB) : CB :=
  if c.weak = 0 then zero_shared_and_weak c else c

/-- Body of SharedPtr::~SharedPtr for a non-null control pointer:
decrement_shared(); release_shared(); if (use_count() == 0) release_weak(). -/
def sharedPtrDestructorCB (c : CB) : CB :=
  let c1 := decrement_shared c
  let c2 := release_shared c1
  if use_count c2 = 0 then release_weak c2 else c2

/-- Body of WeakPtr::~WeakPtr for a non-null control pointer:
decrement_weak(); if (use_count() == 0) release_weak(). -/
def weakPtrDestructorCB (c : CB) : CB :=
  let c1 := decrement_weak c
  if use_count c1 = 0 then release_weak c1 else c1

/-- Handle operations on Owning and Observing Handles that all share one
control block.  copyShared covers the copy constructors of SharedPtr (same
and related type), moveShared the move constructors (pointer transfer, the
source is left null), destroyShared the destructor of a live handle,
resetShared SharedPtr::reset (swap with a default handle, then the temporary
runs the destructor), weakFromShared the WeakPtr(const SharedPtr&)
constructor, copyWeak the WeakPtr copy constructors, moveWeak the WeakPtr
move constructors, destroyWeak the WeakPtr destructor. -/
inductive HOp where
  | copyShared
  | moveShared
  | destroyShared
  | resetShared
  | weakFromShared
  | copyWeak
  | moveWeak
  | destroyWeak
  deriving DecidableEq

/-- System state: the shared control block, the number of live Owning Handles
whose control pointer is this block, and the number of live Observing Handles
whose control pointer is this block. -/
structure Sys where
  cb : CB
  owners : Nat
  weaks : Nat
  deriving DecidableEq

/-- Precondition of each operation: copying from, moving from, destroying or
resetting an Owning Handle needs a live Owning Handle referencing the block
(likewise taking a WeakPtr from one); the WeakPtr operations need a live
Observing Handle referencing the block. -/
def legalOp (s : Sys) (op : HOp) : Bool :=
  match op with
  | HOp.copyShared => decide (0 < s.owners)
  | HOp.moveShared => decide (0 < s.owners)
  | HOp.destroyShared => decide (0 < s.owners)
  | HOp.resetShared => decide (0 < s.owners)
  | HOp.weakFromShared => decide (0 < s.owners)
  | HOp.copyWeak => decide (0 < s.weaks)
  | HOp.moveWeak => decide (0 < s.weaks)
  | HOp.destroyWeak => decide (0 < s.weaks)

/-- Effect of each operation, transcribed from the source: the SharedPtr copy
constructor calls add_shared on a non-null block and adds a referencing
handle; a move transfers the two raw pointers and nulls the source, leaving
the counters and the number of referencing handles unchanged; the SharedPtr
destructor runs sharedPtrDestructorCB; reset builds a default temporary,
swaps, and lets the temporary run the same destructor on the old block;
WeakPtr construction from a SharedPtr or another WeakPtr calls add_weak; the
WeakPtr destructor runs weakPtrDestructorCB. -/
def stepOp (s : Sys) (op : HOp) : Sys :=
  match op with
  | HOp.copyShared => { s with cb := add_shared s.cb, owners := s.owners + 1 }
  | HOp.moveShared => s
  | HOp.destroyShared =>
      { s with cb := sharedPtrDestructorCB s.cb, owners := s.owners - 1 }
  | HOp.resetShared =>
      { s with cb := sharedPtrDestructorCB s.cb, owners := s.owners - 1 }
  | HOp.weakFromShared => { s with cb := add_weak s.cb, weaks := s.weaks + 1 }
  | HOp.copyWeak => { s with cb := add_weak s.cb, weaks := s.weaks + 1 }
  | HOp.moveWeak => s
  | HOp.destroyWeak =>
      { s with cb := weakPtrDestructorCB s.cb, weaks := s.weaks - 1 }

/-- Run a list of operations from a state. -/
def runOps (s : Sys) : List HOp → Sys
  | [] => s
  | op :: rest => runOps (stepOp s op) rest

/-- A trace is legal when every operation satisfies its precondition at the
state where it runs. -/
def legalTrace (s : Sys) : List HOp → Bool
  | [] => true
  | op :: rest => legalOp s op && legalTrace (stepOp s op) rest

/-- State right after the first Owning Handle is constructed over the block:
every control-block constructor starts from SharedWeakCount(0) (both counters
zero, no hook fired), and the constructing SharedPtr then calls add_shared. -/
def initSys : Sys :=
  { cb := add_shared { strong := 0, weak := 0, destroyCount := 0, deallocCount := 0 }
    owners := 1
    weaks := 0 }

/-- Reachable-state invariant: the strong count equals the number of live
Owning Handles referencing the block, the weak count equals the number of
live Observing Handles referencing it, the object-destruction hook has fired
exactly once when the owners are gone and never before, and the
storage-deallocation hook has fired exactly once when both kinds of handle
are gone and never before. -/
def SysInv (s : Sys) : Prop :=
  s.cb.strong = s.owners ∧ s.cb.weak = s.weaks ∧
  s.cb.destroyCount = (if s.owners = 0 then 1 else 0) ∧
  s.cb.deallocCount = (if s.owners = 0 ∧ s.weaks = 0 then 1 else 0)

theorem sysInv_step (s : Sys) (op : HOp) (hl : legalOp s op = true)
    (hi : SysInv s) : SysInv (stepOp s op) := by
  obtain ⟨h1, h2, h3, h4⟩ := hi
  cases op <;>
    simp only [legalOp, decide_eq_true_eq] at hl <;>
    simp only [stepOp, sharedPtrDestructorCB, weakPtrDestructorCB, add_shared,
      add_weak, decrement_shared, decrement_weak, release_shared, release_weak,
      zero_shared, zero_shared_and_weak, use_count, SysInv] <;>
    split_ifs <;> simp_all <;> omega

theorem sysInv_runOps (ops : List HOp) (s : Sys) (hs : SysInv s)
    (hl : legalTrace s ops = true) : SysInv (runOps s ops) := by
  induction ops generalizing s with
  | nil => exact hs
  | cons op rest ih =>
      simp only [legalTrace, Bool.and_eq_true] at hl
      exact ih (stepOp s op) (sysInv_step s op hl.1 hs) hl.2

theorem sysInv_initSys : SysInv initSys := by
  simp [SysInv, initSys, add_shared]

theorem destroy_step_char (s : Sys) (op : HOp) (hl : legalOp s op = true)
    (hi : SysInv s) :
    (stepOp s op).cb.destroyCount =
      s.cb.destroyCount +
        (if s.owners = 1 ∧ (op = HOp.destroyShared ∨ op = HOp.resetShared)
          then 1 else 0) := by
  obtain ⟨h1, h2, h3, h4⟩ := hi
  cases op <;>
    simp only [legalOp, decide_eq_true_eq] at hl <;>
    simp only [stepOp, sharedPtrDestructorCB, weakPtrDestructorCB, add_shared,
      add_weak, decrement_shared, decrement_weak, release_shared, release_weak,
      zero_shared, zero_shared_and_weak, use_count] <;>
    split_ifs <;> simp_all <;> omega

theorem dealloc_step_char (s : Sys) (op : HOp) (hl : legalOp s op = true)
    (hi : SysInv s) :
    (stepOp s op).cb.deallocCount =
      s.cb.deallocCount +
        (if (s.owners = 1 ∧ s.weaks = 0 ∧
              (op = HOp.destroyShared ∨ op = HOp.resetShared)) ∨
            (s.owners = 0 ∧ s.weaks = 1 ∧ op = HOp.destroyWeak)
          then 1 else 0) := by
  obtain ⟨h1, h2, h3, h4⟩ := hi
  cases op <;>
    simp only [legalOp, decide_eq_true_eq] at hl <;>
    simp only [stepOp, sharedPtrDestructorCB, weakPtrDestructorCB, add_shared,
      add_weak, decrement_shared, decrement_weak, release_shared, release_weak,
      zero_shared, zero_shared_and_weak, use_count] <;>
    split_ifs <;> simp_all <;> omega

/-- Claim C2: along every legal trace of construct/copy/move/destroy/reset
operations on Owning Handles sharing one control block (Observing-Handle
operations allowed as well), the object-destruction hook has fired exactly
once when no live Owning Handle references the block and never before, and a
next step fires it exactly when it destroys or resets the last live Owning
Handle, i.e. at the strong-count transition from 1 to 0. -/
theorem object_destroyed_once (ops : List HOp)
    (hl : legalTrace initSys ops = true) :
    ((runOps initSys ops).cb.destroyCount =
      if (runOps initSys ops).owners = 0 then 1 else 0) ∧
    ∀ op : HOp, legalOp (runOps initSys ops) op = true →
      (stepOp (runOps initSys ops) op).cb.destroyCount =
        (runOps initSys ops).cb.destroyCount +
          (if (runOps initSys ops).owners = 1 ∧
              (op = HOp.destroyShared ∨ op = HOp.resetShared)
            then 1 else 0) := by
  have hinv := sysInv_runOps ops initSys sysInv_initSys hl
  exact ⟨hinv.2.2.1, fun op hop => destroy_step_char _ op hop hinv⟩

theorem object_destroyed_once_witness :
    (runOps initSys [HOp.copyShared, HOp.destroyShared, HOp.destroyShared]).cb.destroyCount =
      if (runOps initSys [HOp.copyShared, HOp.destroyShared, HOp.destroyShared]).owners = 0
        then 1 else 0 :=
  (object_destroyed_once [HOp.copyShared, HOp.destroyShared, HOp.destroyShared]
    (by decide)).1

/-- Claim C3: along every legal trace of operations on handles sharing one
control block, use_count on the block equals the number of live Owning
Handles referencing the block at every observation point. -/
theorem use_count_eq_live_owners (ops : List HOp)
    (hl : legalTrace initSys ops = true) :
    use_count (runOps initSys ops).cb = (runOps initSys ops).owners :=
  (sysInv_runOps ops initSys sysInv_initSys hl).1

theorem use_count_eq_live_owners_witness :
    use_count (runOps initSys [HOp.copyShared, HOp.moveShared, HOp.destroyShared]).cb =
      (runOps initSys [HOp.copyShared, HOp.moveShared, HOp.destroyShared]).owners :=
  use_count_eq_live_owners [HOp.copyShared, HOp.moveShared, HOp.destroyShared]
    (by decide)

/-- Claim C4: along every legal trace of operations on Owning and Observing
Handles sharing one control block, the storage-deallocation hook has fired
exactly once when neither kind of live handle references the block and never
before, and a next step fires it exactly when it removes the last handle
overall: destroying or resetting the last Owning Handle with no Observing
Handle left, or destroying the last Observing Handle after the owners are
already gone (weak count reaching 0 with the strong count already 0). -/
theorem block_deallocated_once (ops : List HOp)
    (hl : legalTrace initSys ops = true) :
    ((runOps initSys ops).cb.deallocCount =
      if (runOps initSys ops).owners = 0 ∧ (runOps initSys ops).weaks = 0
        then 1 else 0) ∧
    ∀ op : HOp, legalOp (runOps initSys ops) op = true →
      (stepOp (runOps initSys ops) op).cb.deallocCount =
        (runOps initSys ops).cb.deallocCount +
          (if ((runOps initSys ops).owners = 1 ∧ (runOps initSys ops).weaks = 0 ∧
                (op = HOp.destroyShared ∨ op = HOp.resetShared)) ∨
              ((runOps initSys ops).owners = 0 ∧ (runOps initSys ops).weaks = 1 ∧
                op = HOp.destroyWeak)
            then 1 else 0) := by
  have hinv := sysInv_runOps ops initSys sysInv_initSys hl
  exact ⟨hinv.2.2.2, fun op hop => dealloc_step_char _ op hop hinv⟩

theorem block_deallocated_once_witness :
    (runOps initSys [HOp.weakFromShared, HOp.destroyShared, HOp.destroyWeak]).cb.deallocCount =
      if (runOps initSys [HOp.weakFromShared, HOp.destroyShared, HOp.destroyWeak]).owners = 0 ∧
          (runOps initSys [HOp.weakFromShared, HOp.destroyShared, HOp.destroyWeak]).weaks = 0
        then 1 else 0 :=
  (block_deallocated_once [HOp.weakFromShared, HOp.destroyShared, HOp.destroyWeak]
    (by decide)).1

/-- SharedPtr handle fields over the single modelled block: element_ptr is
the raw object pointer (0 stands for nullptr), hasControl tells whether
control_ptr_ points at the block (false stands for a null control pointer). -/
structure SharedPtrS where
  element_ptr : Nat
  hasControl : Bool
  deriving DecidableEq

/-- WeakPtr handle fields, same representation as SharedPtrS. -/
structure WeakPtrS where
  element_ptr : Nat
  hasControl : Bool
  deriving DecidableEq

/-- WeakPtr::expired: control_ptr_ == nullptr || control_ptr_->use_count() == 0. -/
def WeakPtr.expired (hasControl : Bool) (c : CB) : Bool :=
  !hasControl || (use_count c == 0)

/-- WeakPtr::lock, transcribed from the source: default-construct a SharedPtr,
set its control pointer to this handle's control pointer via the conditional
(nullptr when ours is null), copy the element pointer when the control
pointer is non-null, and return it.  The source performs no add_shared and no
expiry check, so the block is returned unchanged. -/
def WeakPtr.lock (w : WeakPtrS) (c : CB) : SharedPtrS × CB :=
  let smartCtrl := if w.hasControl then true else false
  let smartElem := if smartCtrl then w.element_ptr else 0
  ({ element_ptr := smartElem, hasControl := smartCtrl }, c)

/-- Claim C1 (divergence of the code from the claim, at concrete inputs): on
an expired Observing Handle whose control block is non-null with strong count
0 (weak count 1, object already destroyed once), lock returns a handle that
still references the control block and carries the stale element pointer
instead of an empty handle; and on a non-expired Observing Handle (strong
count 1), lock leaves the strong count at 1 instead of incrementing it, since
the source never calls add_shared. -/
theorem lock_failing_eval :
    WeakPtr.expired true (CB.mk 0 1 1 0) = true ∧
    (WeakPtr.lock (WeakPtrS.mk 7 true) (CB.mk 0 1 1 0)).1.hasControl = true ∧
    (WeakPtr.lock (WeakPtrS.mk 7 true) (CB.mk 0 1 1 0)).1.element_ptr = 7 ∧
    (WeakPtr.lock (WeakPtrS.mk 7 true) (CB.mk 0 1 1 0)).2 = CB.mk 0 1 1 0 ∧
    WeakPtr.expired true (CB.mk 1 1 0 0) = false ∧
    (WeakPtr.lock (WeakPtrS.mk 5 true) (CB.mk 1 1 0 0)).2.strong = 1 := by
  decide

/-- Claim C7: expired is true exactly when the control pointer is null or the
strong count is 0; and along every legal trace on which the live Owning
Handles are all gone, every Observing Handle still referencing the block
(weak count may be positive, the handles outliving the object) reports
expired. -/
theorem expired_iff (hasControl : Bool) (c : CB) :
    (WeakPtr.expired hasControl c = true ↔
      hasControl = false ∨ use_count c = 0) ∧
    ∀ ops : List HOp, legalTrace initSys ops = true →
      (runOps initSys ops).owners = 0 →
      WeakPtr.expired true (runOps initSys ops).cb = true := by
  constructor
  · cases hasControl <;> simp [WeakPtr.expired, use_count]
  · intro ops hl h0
    have hinv := sysInv_runOps ops initSys sysInv_initSys hl
    simp [WeakPtr.expired, use_count, hinv.1, h0]

theorem expired_iff_witness :
    WeakPtr.expired true
      (runOps initSys [HOp.weakFromShared, HOp.destroyShared]).cb = true :=
  (expired_iff true (CB.mk 0 0 0 0)).2 [HOp.weakFromShared, HOp.destroyShared]
    (by decide) (by decide)

/-- One Owning Handle together with the counters of the block it (possibly)
references: the state on which self-assignment acts. -/
structure HandleSt where
  element_ptr : Nat
  hasControl : Bool
  cb : CB
  deriving DecidableEq

/-- Copy self-assignment h = h, transcribed from operator=(const SharedPtr&):
SharedPtr(other).swap(*this).  The temporary copy runs the copy constructor
(add_shared when the control pointer is non-null), the swap exchanges the two
equal pointer pairs, and at the end of the full expression the temporary runs
the destructor on the same block. -/
def selfAssignCopy (h : HandleSt) : HandleSt :=
  let cbAfterCopy := if h.hasControl then add_shared h.cb else h.cb
  let thisElem := h.element_ptr
  let thisCtrl := h.hasControl
  let cbEnd := if h.hasControl then sharedPtrDestructorCB cbAfterCopy
    else cbAfterCopy
  { element_ptr := thisElem, hasControl := thisCtrl, cb := cbEnd }

/-- Move self-assignment h = move(h), transcribed from
operator=(SharedPtr&&): SharedPtr(std::move(other)).swap(*this).  The move
constructor transfers both pointers into the temporary and nulls *this; the
swap puts them back into *this and leaves the temporary null; the temporary's
destructor then sees a null control pointer and does nothing. -/
def selfAssignMove (h : HandleSt) : HandleSt :=
  let tempElem := h.element_ptr
  let tempCtrl := h.hasControl
  let thisElem := 0
  let thisCtrl := false
  let thisElem2 := tempElem
  let thisCtrl2 := tempCtrl
  let tempElem2 := thisElem
  let tempCtrl2 := thisCtrl
  let cbEnd := if tempCtrl2 then sharedPtrDestructorCB h.cb else h.cb
  { element_ptr := thisElem2, hasControl := thisCtrl2, cb := cbEnd }

/-- Claim C8: for every Owning Handle (empty or not) whose referenced block,
when present, counts this live handle in its strong count, copy and move
self-assignment leave the handle and the block observably unchanged: same
element pointer, same control-block reference, same counters, and neither
cleanup hook fires. -/
theorem self_assignment_noop (h : HandleSt)
    (hc : h.hasControl = true → 0 < h.cb.strong) :
    selfAssignCopy h = h ∧ selfAssignMove h = h := by
  obtain ⟨e, ctrl, ⟨st, wk, dc, da⟩⟩ := h
  cases ctrl with
  | false => constructor <;> rfl
  | true =>
      have hst : 0 < st := hc rfl
      constructor
      · simp only [selfAssignCopy, if_pos, sharedPtrDestructorCB, add_shared,
          decrement_shared, release_shared, release_weak, zero_shared,
          zero_shared_and_weak, use_count, decrement_weak]
        split_ifs <;> simp_all
      · rfl

theorem self_assignment_noop_witness :
    selfAssignCopy (HandleSt.mk 7 true (CB.mk 2 1 0 0)) =
        HandleSt.mk 7 true (CB.mk 2 1 0 0) ∧
      selfAssignMove (HandleSt.mk 7 true (CB.mk 2 1 0 0)) =
        HandleSt.mk 7 true (CB.mk 2 1 0 0) :=
  self_assignment_noop (HandleSt.mk 7 true (CB.mk 2 1 0 0)) (by decide)

/-- Outcome record for the raw-pointer-plus-deleter constructors: how many
times the destruction strategy was invoked on the raw object, how many
control-block allocations are still outstanding (allocated and not released)
when the constructor finishes or unwinds, and whether the failure propagated
to the caller. -/
structure CtorDelResult where
  deleterCalls : Nat
  outstandingBlockAllocs : Nat
  threw : Bool
  deriving DecidableEq

/-- SharedPtr(Y* ptr, Deleter del), lines 257 to 269: the whole body sits in
a try block; new control_block(...) either succeeds (block allocated,
add_shared runs) or throws, in which case the catch clause runs del(ptr) and
rethrows.  The flag says whether the control-block allocation fails. -/
def SharedPtr.ctorPtrDeleter (allocFails : Bool) : CtorDelResult :=
  if allocFails then
    { deleterCalls := 1, outstandingBlockAllocs := 0, threw := true }
  else
    { deleterCalls := 0, outstandingBlockAllocs := 1, threw := false }

/-- SharedPtr(Y* ptr, Deleter del, Alloc alloc), lines 271 to 292: the call
rebinded_traits::allocate(rebinded, 1) stands before the try block, so when
it throws nothing is caught, del(ptr) never runs and the failure propagates
directly; only the construct call and add_shared are inside the try, whose
catch deallocates the block, runs del(ptr) and rethrows. -/
def SharedPtr.ctorPtrDeleterAlloc (allocFails constructFails : Bool) :
    CtorDelResult :=
  if allocFails then
    { deleterCalls := 0, outstandingBlockAllocs := 0, threw := true }
  else if constructFails then
    { deleterCalls := 1, outstandingBlockAllocs := 0, threw := true }
  else
    { deleterCalls := 0, outstandingBlockAllocs := 1, threw := false }

/-- Claim C5 (divergence of the code from the claim, at a concrete input):
when the allocation of the control block fails in the two-argument
constructor the deleter is invoked exactly once before the failure
propagates, as the claim states; but in the three-argument constructor with
a custom allocation strategy the allocate call stands outside the try block,
so on allocation failure the deleter is invoked zero times and the raw
object leaks while the failure propagates.  Construct failure, by contrast,
does invoke the deleter once there. -/
theorem ctor_alloc_failure_eval :
    (SharedPtr.ctorPtrDeleter true).deleterCalls = 1 ∧
    (SharedPtr.ctorPtrDeleter true).threw = true ∧
    (SharedPtr.ctorPtrDeleterAlloc true false).deleterCalls = 0 ∧
    (SharedPtr.ctorPtrDeleterAlloc true false).threw = true ∧
    (SharedPtr.ctorPtrDeleterAlloc false true).deleterCalls = 1 := by
  decide

/-- Outcome record for AllocateShared when the managed object's constructor
may fail: raw control-block allocate and deallocate calls through the
rebound allocation strategy, destructor runs of the stored
allocation-strategy value (Storage::~Storage), and whether the failure
propagated. -/
structure FactoryFailResult where
  rawAllocs : Nat
  rawDeallocs : Nat
  allocValueDestroys : Nat
  threw : Bool
  deriving DecidableEq

/-- AllocateShared failure path, lines 407 to 420 with the
SharedPtrEmplacer constructor of lines 159 to 168: cntrl_traits::allocate
obtains the block; the placement new then constructs the emplacer, whose
member storage_ first places the allocation-strategy value and whose body
then constructs T.  When T's constructor throws, the fully constructed
storage_ member is destroyed (destroying the allocation-strategy value) and
the exception leaves AllocateShared, which has no handler: no deallocate of
the raw block runs on this path. -/
def AllocateSharedOutcome (objectCtorFails : Bool) : FactoryFailResult :=
  if objectCtorFails then
    { rawAllocs := 1, rawDeallocs := 0, allocValueDestroys := 1, threw := true }
  else
    { rawAllocs := 1, rawDeallocs := 0, allocValueDestroys := 0, threw := false }

/-- Claim C6 (divergence of the code from the claim, at a concrete input):
when the managed object's constructor fails after the combined block was
allocated, the allocation-strategy value is destroyed as the claim states,
but the raw block is never deallocated before the failure propagates: the
allocate call was performed and no deallocate runs on the unwind path. -/
theorem allocate_shared_ctor_failure_eval :
    (AllocateSharedOutcome true).allocValueDestroys = 1 ∧
    (AllocateSharedOutcome true).rawAllocs = 1 ∧
    (AllocateSharedOutcome true).rawDeallocs = 0 ∧
    (AllocateSharedOutcome true).threw = true := by
  decide

/-- The value type used to model the factory operation: a record built from
two constructor arguments. -/
structure Val where
  a : Nat
  b : Nat
  deriving DecidableEq

/-- Direct construction of the value type with arguments (a, b): the
comparison point the claim names. -/
def directConstruct (a b : Nat) : Val := Val.mk a b

/-- A SharedPtrEmplacer control block over Val: its SharedWeakCount counters
and the in-place constructed element reachable through get_elem. -/
structure EmplacerBlock where
  counts : CB
  elem : Val
  deriving DecidableEq

/-- SharedPtrEmplacer constructor, lines 159 to 168: the base
SharedWeakCount is default-initialized with both counters 0 and no hook
fired, the allocation-strategy value is placed into storage_, and T is
constructed in place from the forwarded arguments. -/
def sharedPtrEmplacerCtor (a b : Nat) : EmplacerBlock :=
  { counts := { strong := 0, weak := 0, destroyCount := 0, deallocCount := 0 }
    elem := Val.mk a b }

/-- SharedPtr::create_with_control_block, lines 396 to 405:
default-construct a SharedPtr, set its element pointer to the given pointer
and its control pointer to the given block, and call add_shared on the
block.  The result pairs the handle fields (element value it points at, and
that the control pointer is non-null) with the updated block. -/
def create_with_control_block (elem : Val) (block : EmplacerBlock) :
    (Val × Bool) × EmplacerBlock :=
  ((elem, true), { block with counts := add_shared block.counts })

/-- Result of the factory operation: the handle's dereferenced element and
control-pointer state, the final block, and the number of allocate calls the
supplied allocation strategy performed during the whole factory call. -/
structure FactoryResult where
  handleElem : Val
  handleHasControl : Bool
  block : EmplacerBlock
  allocCalls : Nat
  deriving DecidableEq

/-- AllocateShared, lines 407 to 420, happy path: one
cntrl_traits::allocate call obtains the block, the placement new runs the
SharedPtrEmplacer constructor over the forwarded arguments, and
create_with_control_block binds the returned handle to get_elem() and the
block. -/
def AllocateShared (a b : Nat) : FactoryResult :=
  let allocCalls := 1
  let block := sharedPtrEmplacerCtor a b
  let r := create_with_control_block block.elem block
  { handleElem := r.1.1
    handleHasControl := r.1.2
    block := r.2
    allocCalls := allocCalls }

/-- MakeShared, lines 422 to 425: AllocateShared with the default allocation
strategy. -/
def MakeShared (a b : Nat) : FactoryResult := AllocateShared a b

/-- Claim C9: for all constructor arguments (a, b), the factory-constructed
Owning Handle is non-empty, its get() dereferences to the value direct
construction with (a, b) produces, its use_count is 1, and exactly one
allocation was performed by the supplied allocation strategy during the
whole factory call. -/
theorem factory_correct (a b : Nat) :
    (MakeShared a b).handleHasControl = true ∧
    (MakeShared a b).handleElem = directConstruct a b ∧
    use_count (MakeShared a b).block.counts = 1 ∧
    (MakeShared a b).allocCalls = 1 := by
  refine ⟨rfl, rfl, ?_, rfl⟩
  simp [MakeShared, AllocateShared, create_with_control_block,
    sharedPtrEmplacerCtor, add_shared, use_count]

/-- SharedPtr default constructor, line 193 (and the nullptr_t constructor
of line 194, which has the same empty body): both leave element_ptr_ and
control_ptr_ at their null member initializers. -/
def SharedPtr.defaultCtor : SharedPtrS := { element_ptr := 0, hasControl := false }

/-- SharedPtr(std::nullptr_t), line 194. -/
def SharedPtr.nullptrCtor : SharedPtrS := { element_ptr := 0, hasControl := false }

/-- SharedPtr::get, lines 375 to 378: returns element_ptr_. -/
def SharedPtr.get (h : SharedPtrS) : Nat := h.element_ptr

/-- SharedPtr::use_count for a handle, lines 391 to 394: the block's
use_count when the control pointer is non-null, otherwise 0. -/
def SharedPtr.useCountOf (h : SharedPtrS) (c : CB) : Nat :=
  if h.hasControl then use_count c else 0

/-- SharedPtr destructor as it acts on a block, lines 326 to 336: the whole
body is guarded by control_ptr_ != nullptr, so an empty handle touches no
counter and fires no hook. -/
def SharedPtr.destructorOn (h : SharedPtrS) (c : CB) : CB :=
  if h.hasControl then sharedPtrDestructorCB c else c

/-- Claim C10: a default-constructed or nullptr-constructed Owning Handle is
empty: the two constructors agree, no control block is referenced, get()
returns null, use_count() returns 0 against any block state, and running the
destructor changes no counter and fires no hook on any block state. -/
theorem default_handle_empty (c : CB) :
    SharedPtr.defaultCtor = SharedPtr.nullptrCtor ∧
    SharedPtr.defaultCtor.hasControl = false ∧
    SharedPtr.get SharedPtr.defaultCtor = 0 ∧
    SharedPtr.useCountOf SharedPtr.defaultCtor c = 0 ∧
    SharedPtr.destructorOn SharedPtr.defaultCtor c = c := by
  refine ⟨rfl, rfl, rfl, ?_, ?_⟩ <;>
    simp [SharedPtr.useCountOf, SharedPtr.destructorOn, SharedPtr.defaultCtor]

end SmartPointers
